import Mathlib

/-!
Shallow embedding of the numeric core of `chandelier_exit_scanner.py`:
the ATR estimator `compute_atr` and the Chandelier Exit recurrence
`chandelier_exit`.  Prices are modelled as rationals (ℚ); a pandas `NaN`
cell of a float column is modelled as `none` in `Option ℚ`.  A candle
window (`DataFrame` with columns Open/High/Low/Close/Volume) is a
`List Bar`, index 0 the oldest row.
-/

/-- A row of the OHLCV candle window (one pandas DataFrame row). -/
structure Bar where
  Open : ℚ
  High : ℚ
  Low : ℚ
  Close : ℚ
  Volume : ℚ
  deriving Repr, DecidableEq, Inhabited

/-- Column accessor `df['Close'].iloc[i]` (out-of-range reads never occur
in the claims; they default to the zero bar). -/
def closeAt (df : List Bar) (i : ℕ) : ℚ := (df.getD i default).Close

/-- Column accessor `df['High'].iloc[i]`. -/
def highAt (df : List Bar) (i : ℕ) : ℚ := (df.getD i default).High

/-- Column accessor `df['Low'].iloc[i]`. -/
def lowAt (df : List Bar) (i : ℕ) : ℚ := (df.getD i default).Low

/-- True range row `i` of `compute_atr`: the row-wise max (pandas `max(axis=1)`
skips the NaN entries coming from `close.shift(1)` at row 0, leaving
`high[0]-low[0]`): for `i ≥ 1`,
`max(high[i]-low[i], |high[i]-close[i-1]|, |low[i]-close[i-1]|)`. -/
def trAt (df : List Bar) : ℕ → ℚ
  | 0 => highAt df 0 - lowAt df 0
  | i + 1 =>
      max (highAt df (i + 1) - lowAt df (i + 1))
        (max |highAt df (i + 1) - closeAt df i| |lowAt df (i + 1) - closeAt df i|)

/-- The `tr.ewm(alpha=1/period, adjust=False).mean()` recurrence of
`compute_atr`: `atr[0] = tr[0]`, `atr[i] = α·tr[i] + (1-α)·atr[i-1]`
with `α = 1/period`. -/
def atrAt (df : List Bar) (p : ℕ) : ℕ → ℚ
  | 0 => trAt df 0
  | i + 1 => (1 / (p : ℚ)) * trAt df (i + 1) + (1 - 1 / (p : ℚ)) * atrAt df p i

/-- The ATR series as a full-length column, aligned with the input window. -/
def atrList (df : List Bar) (p : ℕ) : List ℚ :=
  (List.range df.length).map (atrAt df p)

/-- Embedding of `compute_atr(df, period)`.  For an integer `period < 1`
Python raises before producing a series (`ZeroDivisionError` at
`1/period` for `period = 0`, pandas' `0 < alpha <= 1` validation for
negative `period`); this failure is modelled as the `InvalidParameter`
error.  For `period ≥ 1` the call returns the full-length smoothed
series and cannot fail. -/
def compute_atr (df : List Bar) (period : ℤ) : Except String (List ℚ) :=
  if period < 1 then Except.error "InvalidParameter"
  else Except.ok (atrList df period.toNat)

/-- Rolling maximum `series.rolling(p).max()` evaluated at row `i`:
the maximum of the window `[i-p+1, i]`.  The scanner loop only reads
rows `i ≥ p`, where the pandas value is defined and equals this. -/
def rollMax (f : ℕ → ℚ) (p i : ℕ) : ℚ :=
  ((List.range p).map fun j => f (i - j)).foldl max (f i)

/-- Rolling minimum `series.rolling(p).min()` evaluated at row `i`. -/
def rollMin (f : ℕ → ℚ) (p i : ℕ) : ℚ :=
  ((List.range p).map fun j => f (i - j)).foldl min (f i)

/-- Candidate long stop at row `i`: `highest.iloc[i] - atr.iloc[i]` where
`highest` is the rolling max of Close (if `use_close`) else of High and
`atr` is already scaled by the multiplier (`atr = ATR_MULT * compute_atr(...)`). -/
def lsCand (df : List Bar) (p : ℕ) (m : ℚ) (uc : Bool) (i : ℕ) : ℚ :=
  (if uc then rollMax (closeAt df) p i else rollMax (highAt df) p i) - m * atrAt df p i

/-- Candidate short stop at row `i`: `lowest.iloc[i] + atr.iloc[i]`. -/
def ssCand (df : List Bar) (p : ℕ) (m : ℚ) (uc : Bool) (i : ℕ) : ℚ :=
  (if uc then rollMin (closeAt df) p i else rollMin (lowAt df) p i) + m * atrAt df p i

/-- State of the `for i in range(ATR_PERIOD, n)` loop of `chandelier_exit`
after row `i` is processed: `(long_stop[i], short_stop[i], direction[i])`.
The arrays start as `np.full(n, nan)`, `np.full(n, nan)`, `np.ones(n, int)`,
so rows before the loop's first index `p` hold `(none, none, 1)`.
For `i ≥ p` the loop body is translated line for line:
seeded previous stops via `getD`, the ratchet `max`/`min`, and the
three-way direction update (bullish test first). -/
def ceState (df : List Bar) (p : ℕ) (m : ℚ) (uc : Bool) : ℕ → Option ℚ × Option ℚ × ℤ
  | 0 => (none, none, 1)
  | i + 1 =>
      if i + 1 < p then (none, none, 1)
      else
        let prev := ceState df p m uc i
        let ls := lsCand df p m uc (i + 1)
        let lsp := prev.1.getD ls
        let ss := ssCand df p m uc (i + 1)
        let ssp := prev.2.1.getD ss
        ( some (if closeAt df i > lsp then max ls lsp else ls),
          some (if closeAt df i < ssp then min ss ssp else ss),
          if closeAt df (i + 1) > ssp then 1
          else if closeAt df (i + 1) < lsp then -1
          else prev.2.2 )

/-- The `long_stop` array cell at row `i`. -/
def longStopAt (df : List Bar) (p : ℕ) (m : ℚ) (uc : Bool) (i : ℕ) : Option ℚ :=
  (ceState df p m uc i).1

/-- The `short_stop` array cell at row `i`. -/
def shortStopAt (df : List Bar) (p : ℕ) (m : ℚ) (uc : Bool) (i : ℕ) : Option ℚ :=
  (ceState df p m uc i).2.1

/-- The `direction` array cell at row `i` (an integer array: it holds the
initialisation value `1` on rows the loop never writes). -/
def dirAt (df : List Bar) (p : ℕ) (m : ℚ) (uc : Bool) (i : ℕ) : ℤ :=
  (ceState df p m uc i).2.2

/-- The `dir_prev` column: `direction` shifted by one, with the first
cell's NaN filled with `1` (`shift(1).fillna(1).astype(int)`). -/
def dirPrevAt (df : List Bar) (p : ℕ) (m : ℚ) (uc : Bool) : ℕ → ℤ
  | 0 => 1
  | i + 1 => dirAt df p m uc i

/-- The `buySignal` column: `(dir == 1) & (dir_prev == -1)`. -/
def buySignalAt (df : List Bar) (p : ℕ) (m : ℚ) (uc : Bool) (i : ℕ) : Bool :=
  (dirAt df p m uc i == 1) && (dirPrevAt df p m uc i == -1)

/-- The `sellSignal` column: `(dir == -1) & (dir_prev == 1)`. -/
def sellSignalAt (df : List Bar) (p : ℕ) (m : ℚ) (uc : Bool) (i : ℕ) : Bool :=
  (dirAt df p m uc i == -1) && (dirPrevAt df p m uc i == 1)

/-- The DataFrame returned by `chandelier_exit`: a copy of the input rows
plus the six indicator columns. -/
structure Frame where
  bars : List Bar
  longStop : List (Option ℚ)
  shortStop : List (Option ℚ)
  dir : List ℤ
  dir_prev : List ℤ
  buySignal : List Bool
  sellSignal : List Bool
  deriving Repr, DecidableEq

/-- The frame built by the body of `chandelier_exit` once the ATR call has
succeeded, for loop start `p`, multiplier `m` and source flag `uc`. -/
def chandelierFrame (df : List Bar) (p : ℕ) (m : ℚ) (uc : Bool) : Frame :=
  { bars := df
    longStop := (List.range df.length).map fun i => longStopAt df p m uc i
    shortStop := (List.range df.length).map fun i => shortStopAt df p m uc i
    dir := (List.range df.length).map fun i => dirAt df p m uc i
    dir_prev := (List.range df.length).map fun i => dirPrevAt df p m uc i
    buySignal := (List.range df.length).map fun i => buySignalAt df p m uc i
    sellSignal := (List.range df.length).map fun i => sellSignalAt df p m uc i }

/-- The spec's `computeChandelier(window, atr-params…)` contract point:
the `chandelier_exit` body with the module configuration constants
abstracted into parameters (spec §9 turns the globals into an explicit
configuration value).  The only failure path is the `compute_atr` call
on line 53 of the script. -/
def computeChandelier (df : List Bar) (period : ℤ) (m : ℚ) (uc : Bool) :
    Except String Frame :=
  match compute_atr df period with
  | Except.error e => Except.error e
  | Except.ok _ => Except.ok (chandelierFrame df period.toNat m uc)

/-- Module configuration constant `ATR_PERIOD = 1`. -/
def ATR_PERIOD : ℤ := 1

/-- Module configuration constant `ATR_MULT = 2.0`. -/
def ATR_MULT : ℚ := 2

/-- Module configuration constant `USE_CLOSE = True`. -/
def USE_CLOSE : Bool := true

/-- Embedding of `chandelier_exit(df)` at the module configuration. -/
def chandelier_exit (df : List Bar) : Except String Frame :=
  computeChandelier df ATR_PERIOD ATR_MULT USE_CLOSE

/-- A degenerate but well-formed candle with `open = high = low = close`. -/
def mkDoji (c : ℚ) : Bar := ⟨c, c, c, c, 0⟩

/-- A one-bar window (fewer than 2 bars). -/
def w1 : List Bar := [⟨1, 3, 1, 2, 5⟩]

/-- A three-bar window of rising doji candles with closes 10, 12, 14. -/
def w3 : List Bar := [mkDoji 10, mkDoji 12, mkDoji 14]

/-- A nine-bar window of doji candles: closes rise 100…107 and then drop
to 104.5, which lands strictly between the previous short stop
(≈ 103.44) and the previous long stop (≈ 105.56) for period 6,
multiplier 2, close-based extremes. -/
def w9 : List Bar :=
  [mkDoji 100, mkDoji 101, mkDoji 102, mkDoji 103, mkDoji 104,
   mkDoji 105, mkDoji 106, mkDoji 107, mkDoji (209 / 2)]

/-! ## Concrete evaluations of the loop state on `w9` -/

set_option maxHeartbeats 1000000 in
lemma w9_state6 : ceState w9 6 2 true 6 =
    (some (2441737 / 23328), some (2387159 / 23328), 1) := by
  norm_num [ceState, lsCand, ssCand, rollMax, rollMin, atrAt, trAt, closeAt, highAt,
    lowAt, w9, mkDoji, List.range_succ, max_def, min_def]

set_option maxHeartbeats 1000000 in
lemma w9_state7 : ceState w9 6 2 true 7 =
    (some (14774765 / 139968), some (14478547 / 139968), 1) := by
  norm_num [w9_state6, ceState, lsCand, ssCand, rollMax, rollMin, atrAt, trAt,
    closeAt, highAt, lowAt, w9, mkDoji, List.range_succ, max_def, min_def]

set_option maxHeartbeats 1000000 in
lemma w9_state8 : ceState w9 6 2 true 8 =
    (some (14774765 / 139968), some (88209119 / 839808), 1) := by
  norm_num [w9_state7, ceState, lsCand, ssCand, rollMax, rollMin, atrAt, trAt,
    closeAt, highAt, lowAt, w9, mkDoji, List.range_succ, max_def, min_def,
    abs_of_nonneg, abs_of_nonpos]

/-! ## Bridge lemmas between the frame columns and the loop state -/

lemma getD_range_map {α : Type} (f : ℕ → α) (n i : ℕ) (d : α) (h : i < n) :
    ((List.range n).map f).getD i d = f i := by
  simp [List.getD_eq_getElem?_getD, List.getElem?_range, h]

lemma compute_atr_ok {df : List Bar} {period : ℤ} {l : List ℚ}
    (h : compute_atr df period = Except.ok l) :
    1 ≤ period ∧ l = atrList df period.toNat := by
  by_cases hp : period < 1
  · simp [compute_atr, hp] at h
  · refine ⟨by omega, ?_⟩
    simp only [compute_atr, if_neg hp] at h
    exact (Except.ok.injEq _ _ ▸ h).symm

lemma computeChandelier_ok {df : List Bar} {period : ℤ} {m : ℚ} {uc : Bool} {F : Frame}
    (h : computeChandelier df period m uc = Except.ok F) :
    1 ≤ period ∧ F = chandelierFrame df period.toNat m uc := by
  by_cases hp : period < 1
  · simp [computeChandelier, compute_atr, hp] at h
  · refine ⟨by omega, ?_⟩
    simp only [computeChandelier, compute_atr, if_neg hp] at h
    exact (Except.ok.injEq _ _ ▸ h).symm

lemma frame_longStop_getD (df : List Bar) (p : ℕ) (m : ℚ) (uc : Bool) {i : ℕ}
    (h : i < df.length) :
    (chandelierFrame df p m uc).longStop.getD i none = longStopAt df p m uc i :=
  getD_range_map _ _ _ _ h

lemma frame_shortStop_getD (df : List Bar) (p : ℕ) (m : ℚ) (uc : Bool) {i : ℕ}
    (h : i < df.length) :
    (chandelierFrame df p m uc).shortStop.getD i none = shortStopAt df p m uc i :=
  getD_range_map _ _ _ _ h

lemma frame_dir_getD (df : List Bar) (p : ℕ) (m : ℚ) (uc : Bool) {i : ℕ}
    (h : i < df.length) :
    (chandelierFrame df p m uc).dir.getD i 0 = dirAt df p m uc i :=
  getD_range_map _ _ _ _ h

lemma frame_buySignal_getD (df : List Bar) (p : ℕ) (m : ℚ) (uc : Bool) {i : ℕ}
    (h : i < df.length) :
    (chandelierFrame df p m uc).buySignal.getD i false = buySignalAt df p m uc i :=
  getD_range_map _ _ _ _ h

lemma frame_sellSignal_getD (df : List Bar) (p : ℕ) (m : ℚ) (uc : Bool) {i : ℕ}
    (h : i < df.length) :
    (chandelierFrame df p m uc).sellSignal.getD i false = sellSignalAt df p m uc i :=
  getD_range_map _ _ _ _ h

/-! ## Unfolding lemmas for the loop state -/

lemma ceState_undef {df : List Bar} {p : ℕ} {m : ℚ} {uc : Bool} {i : ℕ} (h : i < p) :
    ceState df p m uc i = (none, none, 1) := by
  cases i with
  | zero => rfl
  | succ j => simp [ceState, h]

lemma longStopAt_succ {df : List Bar} {p : ℕ} {m : ℚ} {uc : Bool} {j : ℕ}
    (h : ¬ j + 1 < p) :
    longStopAt df p m uc (j + 1) =
      some
        (if closeAt df j > (longStopAt df p m uc j).getD (lsCand df p m uc (j + 1)) then
          max (lsCand df p m uc (j + 1))
            ((longStopAt df p m uc j).getD (lsCand df p m uc (j + 1)))
        else lsCand df p m uc (j + 1)) := by
  simp [longStopAt, ceState, h]

lemma shortStopAt_succ {df : List Bar} {p : ℕ} {m : ℚ} {uc : Bool} {j : ℕ}
    (h : ¬ j + 1 < p) :
    shortStopAt df p m uc (j + 1) =
      some
        (if closeAt df j < (shortStopAt df p m uc j).getD (ssCand df p m uc (j + 1)) then
          min (ssCand df p m uc (j + 1))
            ((shortStopAt df p m uc j).getD (ssCand df p m uc (j + 1)))
        else ssCand df p m uc (j + 1)) := by
  simp [shortStopAt, ceState, h]

lemma dirAt_succ {df : List Bar} {p : ℕ} {m : ℚ} {uc : Bool} {j : ℕ}
    (h : ¬ j + 1 < p) :
    dirAt df p m uc (j + 1) =
      if closeAt df (j + 1) > (shortStopAt df p m uc j).getD (ssCand df p m uc (j + 1)) then 1
      else if closeAt df (j + 1) < (longStopAt df p m uc j).getD (lsCand df p m uc (j + 1)) then -1
      else dirAt df p m uc j := by
  simp [dirAt, ceState, h, shortStopAt, longStopAt]

lemma dirAt_one_or_neg (df : List Bar) (p : ℕ) (m : ℚ) (uc : Bool) :
    ∀ i, dirAt df p m uc i = 1 ∨ dirAt df p m uc i = -1 := by
  intro i
  induction i with
  | zero => left; rfl
  | succ j ih =>
    by_cases h : j + 1 < p
    · left; simp [dirAt, ceState_undef h]
    · rw [dirAt_succ h]
      split
      · left; rfl
      · split
        · right; rfl
        · exact ih

lemma dirAt_neg_imp_ge {df : List Bar} {p : ℕ} {m : ℚ} {uc : Bool} {i : ℕ}
    (h : dirAt df p m uc i = -1) : p ≤ i := by
  by_contra hlt
  rw [show dirAt df p m uc i = 1 by simp [dirAt, ceState_undef (by omega : i < p)]] at h
  exact absurd h (by decide)

lemma shortStopAt_some_imp_ge {df : List Bar} {p : ℕ} {m : ℚ} {uc : Bool} {i : ℕ} {s : ℚ}
    (h : shortStopAt df p m uc i = some s) : p ≤ i := by
  by_contra hlt
  rw [show shortStopAt df p m uc i = none by
    simp [shortStopAt, ceState_undef (by omega : i < p)]] at h
  exact absurd h (by simp)

lemma shortStopAt_some_of_ge {df : List Bar} {p : ℕ} {m : ℚ} {uc : Bool} {i : ℕ}
    (hp : 1 ≤ p) (h : p ≤ i) : ∃ s, shortStopAt df p m uc i = some s := by
  obtain ⟨j, rfl⟩ : ∃ j, i = j + 1 := ⟨i - 1, by omega⟩
  exact ⟨_, shortStopAt_succ (by omega)⟩

lemma atrList_getD (df : List Bar) (p : ℕ) {i : ℕ} (h : i < df.length) :
    (atrList df p).getD i 0 = atrAt df p i :=
  getD_range_map _ _ _ _ h

/-! ## Claim theorems -/

/-- C1 (confirmed): in the Chandelier recurrence, for every index
`i ≥ period`, `direction[i]` is `+1` if `close[i]` is strictly above the
previous index's short stop (seeded to the current candidate `ss` when
`shortStop[i-1]` is NaN), else `−1` if `close[i]` is strictly below the
previous index's long stop (seeded to `ls`), else it holds
`direction[i-1]`; the bullish test is evaluated first, so on a bar where
both flip conditions hold the `+1` branch wins. -/
theorem C1_direction_update (df : List Bar) (period : ℤ) (m : ℚ) (uc : Bool)
    (F : Frame) (hF : computeChandelier df period m uc = Except.ok F)
    (i : ℕ) (hpi : period.toNat ≤ i) (hn : i < df.length) :
    F.dir.getD i 0 =
      if closeAt df i >
          (F.shortStop.getD (i - 1) none).getD (ssCand df period.toNat m uc i) then 1
      else if closeAt df i <
          (F.longStop.getD (i - 1) none).getD (lsCand df period.toNat m uc i) then -1
      else F.dir.getD (i - 1) 0 := by
  obtain ⟨hp, rfl⟩ := computeChandelier_ok hF
  obtain ⟨j, rfl⟩ : ∃ j, i = j + 1 := ⟨i - 1, by omega⟩
  simp only [Nat.add_sub_cancel]
  rw [frame_dir_getD df period.toNat m uc hn,
    frame_dir_getD df period.toNat m uc (show j < df.length by omega),
    frame_shortStop_getD df period.toNat m uc (show j < df.length by omega),
    frame_longStop_getD df period.toNat m uc (show j < df.length by omega)]
  exact dirAt_succ (by omega)

/-- Witness for C1: the nine-bar window `w9` with period 6, multiplier 2,
close-based extremes; at index 8 both flip conditions hold
(`shortStop[7] < close[8] < longStop[7]`) and the bullish branch wins. -/
theorem C1_witness :
    (chandelierFrame w9 6 2 true).dir.getD 8 0 = 1 := by
  have h := C1_direction_update w9 6 2 true (chandelierFrame w9 6 2 true) rfl 8
    (by decide) (by decide)
  simp only [show (6 : ℤ).toNat = 6 from rfl] at h
  rw [h, frame_shortStop_getD w9 6 2 true (show 8 - 1 < w9.length by decide),
    frame_longStop_getD w9 6 2 true (show 8 - 1 < w9.length by decide),
    frame_dir_getD w9 6 2 true (show 8 - 1 < w9.length by decide)]
  simp only [show (8 : ℕ) - 1 = 7 from rfl, shortStopAt, longStopAt, dirAt, w9_state7,
    Option.getD_some]
  norm_num [closeAt, w9, mkDoji]

/-- C2 (confirmed): for every index `i ≥ period`, with candidate
`ls = highestRef[i] − mult·atr[i]` and `lsPrev = longStop[i-1]` (or `ls`
itself when undefined), `longStop[i] = max(ls, lsPrev)` when
`close[i-1] > lsPrev`, else `ls`; mirror with `ss`, `min` and
`close[i-1] < ssPrev` for the short stop. -/
theorem C2_ratchet_rule (df : List Bar) (period : ℤ) (m : ℚ) (uc : Bool)
    (F : Frame) (hF : computeChandelier df period m uc = Except.ok F)
    (i : ℕ) (hpi : period.toNat ≤ i) (hn : i < df.length) :
    F.longStop.getD i none =
      some
        (if closeAt df (i - 1) >
            (F.longStop.getD (i - 1) none).getD (lsCand df period.toNat m uc i) then
          max (lsCand df period.toNat m uc i)
            ((F.longStop.getD (i - 1) none).getD (lsCand df period.toNat m uc i))
        else lsCand df period.toNat m uc i) ∧
    F.shortStop.getD i none =
      some
        (if closeAt df (i - 1) <
            (F.shortStop.getD (i - 1) none).getD (ssCand df period.toNat m uc i) then
          min (ssCand df period.toNat m uc i)
            ((F.shortStop.getD (i - 1) none).getD (ssCand df period.toNat m uc i))
        else ssCand df period.toNat m uc i) := by
  obtain ⟨hp, rfl⟩ := computeChandelier_ok hF
  obtain ⟨j, rfl⟩ : ∃ j, i = j + 1 := ⟨i - 1, by omega⟩
  simp only [Nat.add_sub_cancel]
  constructor
  · rw [frame_longStop_getD df period.toNat m uc hn,
      frame_longStop_getD df period.toNat m uc (show j < df.length by omega)]
    exact longStopAt_succ (by omega)
  · rw [frame_shortStop_getD df period.toNat m uc hn,
      frame_shortStop_getD df period.toNat m uc (show j < df.length by omega)]
    exact shortStopAt_succ (by omega)

/-- Witness for C2: on the rising three-bar window with period 1 the
ratcheted stops at index 1 evaluate to `8` and `16`. -/
theorem C2_witness :
    (chandelierFrame w3 1 2 true).longStop.getD 1 none = some 8 ∧
    (chandelierFrame w3 1 2 true).shortStop.getD 1 none = some 16 := by
  have h := C2_ratchet_rule w3 1 2 true (chandelierFrame w3 1 2 true) rfl 1
    (by decide) (by decide)
  simp only [show (1 : ℤ).toNat = 1 from rfl] at h
  refine ⟨h.1.trans ?_, h.2.trans ?_⟩
  · rw [frame_longStop_getD w3 1 2 true (show 1 - 1 < w3.length by decide)]
    norm_num [longStopAt, ceState, lsCand, ssCand, rollMax, rollMin, atrAt, trAt,
      closeAt, highAt, lowAt, w3, mkDoji, List.range_succ, max_def, min_def]
  · rw [frame_shortStop_getD w3 1 2 true (show 1 - 1 < w3.length by decide)]
    norm_num [shortStopAt, ceState, lsCand, ssCand, rollMax, rollMin, atrAt, trAt,
      closeAt, highAt, lowAt, w3, mkDoji, List.range_succ, max_def, min_def]

/-- C3 (confirmed): `compute_atr` returns a series of the input's length
with `atr[0] = tr[0] = high[0] − low[0]` and
`atr[i] = (1/period)·tr[i] + (1 − 1/period)·atr[i-1]` for `i ≥ 1`, where
`tr[i] = max(high[i]−low[i], |high[i]−close[i-1]|, |low[i]−close[i-1]|)`;
no warm-up phase, every index carries a defined value. -/
theorem C3_atr_recurrence (df : List Bar) (period : ℤ) (l : List ℚ)
    (hl : compute_atr df period = Except.ok l) :
    l.length = df.length ∧
    (0 < df.length → l.getD 0 0 = highAt df 0 - lowAt df 0) ∧
    ∀ i, i + 1 < df.length →
      l.getD (i + 1) 0 =
        1 / (period : ℚ) *
            max (highAt df (i + 1) - lowAt df (i + 1))
              (max |highAt df (i + 1) - closeAt df i| |lowAt df (i + 1) - closeAt df i|) +
          (1 - 1 / (period : ℚ)) * l.getD i 0 := by
  obtain ⟨hp, rfl⟩ := compute_atr_ok hl
  have hcast : ((period.toNat : ℕ) : ℚ) = (period : ℚ) := by
    exact_mod_cast congrArg (Int.cast : ℤ → ℚ) (Int.toNat_of_nonneg (by omega))
  refine ⟨by simp [atrList], ?_, ?_⟩
  · intro h0
    rw [atrList_getD df period.toNat h0]
    rfl
  · intro i hi
    rw [atrList_getD df period.toNat hi,
      atrList_getD df period.toNat (show i < df.length by omega),
      show atrAt df period.toNat (i + 1) =
        1 / ((period.toNat : ℕ) : ℚ) * trAt df (i + 1) +
          (1 - 1 / ((period.toNat : ℕ) : ℚ)) * atrAt df period.toNat i from rfl,
      hcast]
    rfl

/-- Witness for C3: the exponential-smoothing recurrence evaluated at
index 1 of the three-bar window with period 2. -/
theorem C3_witness :
    (atrList w3 2).getD 1 0 =
      1 / ((2 : ℤ) : ℚ) *
          max (highAt w3 1 - lowAt w3 1)
            (max |highAt w3 1 - closeAt w3 0| |lowAt w3 1 - closeAt w3 0|) +
        (1 - 1 / ((2 : ℤ) : ℚ)) * (atrList w3 2).getD 0 0 :=
  (C3_atr_recurrence w3 2 (atrList w3 2) rfl).2.2 0 (by decide)

/-- C4 counterexample: in the nine-bar window `w9` with period 6 the bar
at index 8 closes strictly below the previous long stop while the
previous direction is `+1` (not already `−1`), yet no SELL signal fires
(the bullish test wins because the close is also above the previous
short stop).  This refutes the claimed mirror characterisation of
`sellSignal`. -/
theorem C4_counterexample :
    (chandelierFrame w9 6 2 true).sellSignal.getD 8 false = false ∧
    (chandelierFrame w9 6 2 true).dir.getD 7 0 = 1 ∧
    closeAt w9 8 < ((chandelierFrame w9 6 2 true).longStop.getD 7 none).getD 0 := by
  refine ⟨?_, ?_, ?_⟩
  · rw [frame_sellSignal_getD w9 6 2 true (show 8 < w9.length by decide)]
    simp [sellSignalAt, dirPrevAt, dirAt, w9_state8, w9_state7]
  · rw [frame_dir_getD w9 6 2 true (show 7 < w9.length by decide)]
    simp [dirAt, w9_state7]
  · rw [frame_longStop_getD w9 6 2 true (show 7 < w9.length by decide)]
    simp only [longStopAt, w9_state7, Option.getD_some]
    norm_num [closeAt, w9, mkDoji]

/-- C4 (amended): `buySignal[i]` holds iff `direction[i] = +1` and the
previous direction is `−1` (seeded to `+1` at index 0, so no signal can
fire there), equivalently iff `close[i] > shortStop[i-1]` (which is then
defined) and the previous direction was `−1`.  `sellSignal[i]` holds iff
the direction flips `+1 → −1`, equivalently iff `close[i]` is *not*
above the previous short stop **and** is below the previous long stop
and the previous direction was `+1` — the extra short-stop conjunct is
forced by the bullish-first tie-break.  A sustained direction never
fires a signal. -/
theorem C4_signal_characterization (df : List Bar) (period : ℤ) (m : ℚ) (uc : Bool)
    (F : Frame) (hF : computeChandelier df period m uc = Except.ok F)
    (i : ℕ) (hn : i < df.length) :
    (i = 0 → F.buySignal.getD i false = false ∧ F.sellSignal.getD i false = false) ∧
    (1 ≤ i →
      (F.buySignal.getD i false = true ↔
        ∃ s, F.shortStop.getD (i - 1) none = some s ∧ s < closeAt df i ∧
          F.dir.getD (i - 1) 0 = -1) ∧
      (F.sellSignal.getD i false = true ↔
        period.toNat ≤ i ∧
        ¬ (F.shortStop.getD (i - 1) none).getD (ssCand df period.toNat m uc i) <
            closeAt df i ∧
        closeAt df i <
            (F.longStop.getD (i - 1) none).getD (lsCand df period.toNat m uc i) ∧
        F.dir.getD (i - 1) 0 = 1) ∧
      (F.dir.getD i 0 = F.dir.getD (i - 1) 0 →
        F.buySignal.getD i false = false ∧ F.sellSignal.getD i false = false)) := by
  obtain ⟨hp, rfl⟩ := computeChandelier_ok hF
  have hp1 : 1 ≤ period.toNat := by omega
  constructor
  · rintro rfl
    rw [frame_buySignal_getD df period.toNat m uc hn,
      frame_sellSignal_getD df period.toNat m uc hn]
    constructor
    · simp [buySignalAt, dirPrevAt]
    · simp [sellSignalAt, dirPrevAt, dirAt, ceState]
  · intro h1
    obtain ⟨j, rfl⟩ : ∃ j, i = j + 1 := ⟨i - 1, by omega⟩
    simp only [Nat.add_sub_cancel]
    rw [frame_buySignal_getD df period.toNat m uc hn,
      frame_sellSignal_getD df period.toNat m uc hn,
      frame_shortStop_getD df period.toNat m uc (show j < df.length by omega),
      frame_longStop_getD df period.toNat m uc (show j < df.length by omega),
      frame_dir_getD df period.toNat m uc hn,
      frame_dir_getD df period.toNat m uc (show j < df.length by omega)]
    refine ⟨?_, ?_, ?_⟩
    · constructor
      · intro hb
        have hb' : dirAt df period.toNat m uc (j + 1) = 1 ∧
            dirAt df period.toNat m uc j = -1 := by
          simpa [buySignalAt, dirPrevAt] using hb
        obtain ⟨hd1, hdm⟩ := hb'
        obtain ⟨s, hs⟩ := shortStopAt_some_of_ge hp1 (dirAt_neg_imp_ge hdm)
        refine ⟨s, hs, ?_, hdm⟩
        rw [dirAt_succ (by have := dirAt_neg_imp_ge hdm; omega), hs] at hd1
        simp only [Option.getD_some] at hd1
        by_contra hlt
        rw [if_neg hlt] at hd1
        rcases lt_or_ge (closeAt df (j + 1))
            ((longStopAt df period.toNat m uc j).getD
              (lsCand df period.toNat m uc (j + 1))) with h2 | h2
        · rw [if_pos h2] at hd1
          exact absurd hd1 (by decide)
        · rw [if_neg (not_lt.mpr h2), hdm] at hd1
          exact absurd hd1 (by decide)
      · rintro ⟨s, hs, hcl, hdm⟩
        have hpj := shortStopAt_some_imp_ge hs
        have hd1 : dirAt df period.toNat m uc (j + 1) = 1 := by
          rw [dirAt_succ (by omega), hs]
          simp only [Option.getD_some]
          exact if_pos hcl
        simp [buySignalAt, dirPrevAt, hd1, hdm]
    · constructor
      · intro hb
        have hb' : dirAt df period.toNat m uc (j + 1) = -1 ∧
            dirAt df period.toNat m uc j = 1 := by
          simpa [sellSignalAt, dirPrevAt] using hb
        obtain ⟨hdm, hd1⟩ := hb'
        have hpj : period.toNat ≤ j + 1 := dirAt_neg_imp_ge hdm
        rw [dirAt_succ (by omega)] at hdm
        by_cases hc1 : closeAt df (j + 1) >
            (shortStopAt df period.toNat m uc j).getD (ssCand df period.toNat m uc (j + 1))
        · rw [if_pos hc1] at hdm
          exact absurd hdm (by decide)
        · rw [if_neg hc1] at hdm
          by_cases hc2 : closeAt df (j + 1) <
              (longStopAt df period.toNat m uc j).getD (lsCand df period.toNat m uc (j + 1))
          · exact ⟨hpj, hc1, hc2, hd1⟩
          · rw [if_neg hc2, hd1] at hdm
            exact absurd hdm (by decide)
      · rintro ⟨hpj, hc1, hc2, hd1⟩
        have hdm : dirAt df period.toNat m uc (j + 1) = -1 := by
          rw [dirAt_succ (by omega), if_neg hc1, if_pos hc2]
        simp [sellSignalAt, dirPrevAt, hdm, hd1]
    · intro he
      rcases dirAt_one_or_neg df period.toNat m uc j with h | h <;>
        simp [buySignalAt, sellSignalAt, dirPrevAt, he, h]

/-- Witness for the amended C4: at index 8 of `w9` the direction is
unchanged from index 7, so neither signal fires. -/
theorem C4_witness :
    (chandelierFrame w9 6 2 true).buySignal.getD 8 false = false ∧
    (chandelierFrame w9 6 2 true).sellSignal.getD 8 false = false := by
  have h := (C4_signal_characterization w9 6 2 true (chandelierFrame w9 6 2 true) rfl 8
    (by decide)).2 (by decide)
  refine h.2.2 ?_
  rw [frame_dir_getD w9 6 2 true (show 8 < w9.length by decide),
    frame_dir_getD w9 6 2 true (show 8 - 1 < w9.length by decide)]
  simp [dirAt, w9_state8, w9_state7]

/-- C5 counterexample: at index 0 (before `period = 1`) the two stops are
indeed NaN, but the direction cell is *not* undefined — it holds the
integer initialisation value `+1` (`np.ones(n, dtype=int)` cannot hold
NaN), contradicting the claim that `direction[i]` is left undefined/NaN
for `i < period`. -/
theorem C5_counterexample :
    (chandelierFrame w3 1 2 true).longStop.getD 0 none = none ∧
    (chandelierFrame w3 1 2 true).shortStop.getD 0 none = none ∧
    (chandelierFrame w3 1 2 true).dir.getD 0 0 = 1 :=
  ⟨rfl, rfl, rfl⟩

/-- C5 (amended): for every index `i < period` the stops are
undefined/NaN and the direction holds the seed value `+1` (it is an
integer column, never NaN); for every `i ≥ period` both stops are
defined — so the computed range starts exactly at `i = period`. -/
theorem C5_warmup_region (df : List Bar) (period : ℤ) (m : ℚ) (uc : Bool)
    (F : Frame) (hF : computeChandelier df period m uc = Except.ok F)
    (i : ℕ) (hn : i < df.length) :
    (i < period.toNat →
      F.longStop.getD i none = none ∧ F.shortStop.getD i none = none ∧
      F.dir.getD i 0 = 1) ∧
    (period.toNat ≤ i →
      (F.longStop.getD i none).isSome = true ∧
      (F.shortStop.getD i none).isSome = true) := by
  obtain ⟨hp, rfl⟩ := computeChandelier_ok hF
  constructor
  · intro hip
    rw [frame_longStop_getD df period.toNat m uc hn,
      frame_shortStop_getD df period.toNat m uc hn,
      frame_dir_getD df period.toNat m uc hn]
    refine ⟨?_, ?_, ?_⟩ <;>
      simp [longStopAt, shortStopAt, dirAt, ceState_undef hip]
  · intro hpi
    rw [frame_longStop_getD df period.toNat m uc hn,
      frame_shortStop_getD df period.toNat m uc hn]
    obtain ⟨j, rfl⟩ : ∃ j, i = j + 1 := ⟨i - 1, by omega⟩
    rw [longStopAt_succ (by omega), shortStopAt_succ (by omega)]
    exact ⟨rfl, rfl⟩

/-- Witness for the amended C5: index 2 of the nine-bar window with
period 6 is in the warm-up region: stops NaN, direction seed `+1`. -/
theorem C5_witness :
    (chandelierFrame w9 6 2 true).longStop.getD 2 none = none ∧
    (chandelierFrame w9 6 2 true).shortStop.getD 2 none = none ∧
    (chandelierFrame w9 6 2 true).dir.getD 2 0 = 1 :=
  (C5_warmup_region w9 6 2 true (chandelierFrame w9 6 2 true) rfl 2 (by decide)).1
    (by decide)

/-- C6 counterexample: a one-bar window (`N = 1 < period + 1 = 2`, and
fewer than 2 bars) makes neither `compute_atr` nor the Chandelier
computation fail — both return successfully, `compute_atr` with a
defined single-entry series and the recurrence with an all-NaN/seed
frame.  This refutes the claimed `InsufficientData` failures. -/
theorem C6_counterexample :
    compute_atr w1 1 = Except.ok (atrList w1 1) ∧
    computeChandelier w1 1 2 true = Except.ok (chandelierFrame w1 1 2 true) :=
  ⟨rfl, rfl⟩

/-- C6 (amended): the only failure of the numeric core is `period < 1`
(Python raises computing `alpha = 1/period`, modelled as
`InvalidParameter`); for every `period ≥ 1` both `compute_atr` and the
Chandelier computation succeed on *any* window, short windows included —
there is no `InsufficientData` check. -/
theorem C6_failure_model (df : List Bar) (period : ℤ) (m : ℚ) (uc : Bool) :
    (period < 1 →
      compute_atr df period = Except.error "InvalidParameter" ∧
      computeChandelier df period m uc = Except.error "InvalidParameter") ∧
    (1 ≤ period →
      compute_atr df period = Except.ok (atrList df period.toNat) ∧
      computeChandelier df period m uc = Except.ok (chandelierFrame df period.toNat m uc)) := by
  constructor
  · intro hplt
    have h1 : compute_atr df period = Except.error "InvalidParameter" := by
      simp [compute_atr, hplt]
    exact ⟨h1, by simp [computeChandelier, h1]⟩
  · intro hpge
    have h1 : compute_atr df period = Except.ok (atrList df period.toNat) := by
      simp [compute_atr, show ¬ period < 1 by omega]
    exact ⟨h1, by simp [computeChandelier, h1]⟩

/-- Witness for the amended C6: `period = 0` fails on the empty window. -/
theorem C6_witness :
    compute_atr ([] : List Bar) 0 = Except.error "InvalidParameter" ∧
    computeChandelier ([] : List Bar) 0 2 true = Except.error "InvalidParameter" :=
  (C6_failure_model [] 0 2 true).1 (by decide)

/-- C7 (confirmed): across two consecutive computed indices `j`, `j+1`
(both `≥ period`), if `longStop[j]` is defined and `close[j] >
longStop[j]`, then `longStop[j+1] ≥ longStop[j]` — the ratchet keeps the
long stop non-decreasing while the previous close stays above it. -/
theorem C7_long_stop_ratchet_monotone (df : List Bar) (period : ℤ) (m : ℚ) (uc : Bool)
    (F : Frame) (hF : computeChandelier df period m uc = Except.ok F)
    (j : ℕ) (hpj : period.toNat ≤ j) (hn : j + 1 < df.length)
    (q r : ℚ) (hq : F.longStop.getD j none = some q) (hc : q < closeAt df j)
    (hr : F.longStop.getD (j + 1) none = some r) : q ≤ r := by
  obtain ⟨hp, rfl⟩ := computeChandelier_ok hF
  rw [frame_longStop_getD df period.toNat m uc (show j < df.length by omega)] at hq
  rw [frame_longStop_getD df period.toNat m uc hn, longStopAt_succ (by omega), hq] at hr
  simp only [Option.getD_some] at hr
  rw [if_pos hc] at hr
  have hr' := Option.some.inj hr
  rw [← hr']
  exact le_max_right _ _

/-- Witness for C7: on the rising three-bar window with period 1,
`longStop[1] = 8`, `close[1] = 12 > 8`, and `longStop[2] = 10 ≥ 8`. -/
theorem C7_witness :
    (chandelierFrame w3 1 2 true).longStop.getD 1 none = some 8 ∧
    (chandelierFrame w3 1 2 true).longStop.getD 2 none = some 10 ∧ (8 : ℚ) ≤ 10 := by
  have h1 : (chandelierFrame w3 1 2 true).longStop.getD 1 none = some 8 := by
    rw [frame_longStop_getD w3 1 2 true (show 1 < w3.length by decide)]
    norm_num [longStopAt, ceState, lsCand, ssCand, rollMax, rollMin, atrAt, trAt,
      closeAt, highAt, lowAt, w3, mkDoji, List.range_succ, max_def, min_def]
  have h2 : (chandelierFrame w3 1 2 true).longStop.getD 2 none = some 10 := by
    rw [frame_longStop_getD w3 1 2 true (show 2 < w3.length by decide)]
    norm_num [longStopAt, ceState, lsCand, ssCand, rollMax, rollMin, atrAt, trAt,
      closeAt, highAt, lowAt, w3, mkDoji, List.range_succ, max_def, min_def]
  have hc : (8 : ℚ) < closeAt w3 1 := by norm_num [closeAt, w3, mkDoji]
  exact ⟨h1, h2,
    C7_long_stop_ratchet_monotone w3 1 2 true (chandelierFrame w3 1 2 true) rfl 1
      (by decide) (by decide) 8 10 h1 hc h2⟩

/-- C8 (confirmed): with `period = 1` the smoothing factor is
`alpha = 1` and the ATR series returned by `compute_atr` equals the
true-range series exactly at every index `i ≥ 1`. -/
theorem C8_atr_equals_tr (df : List Bar) (l : List ℚ)
    (hl : compute_atr df 1 = Except.ok l) (i : ℕ) (h1 : 1 ≤ i) (hn : i < df.length) :
    l.getD i 0 = trAt df i := by
  obtain ⟨-, rfl⟩ := compute_atr_ok hl
  obtain ⟨j, rfl⟩ : ∃ j, i = j + 1 := ⟨i - 1, by omega⟩
  rw [atrList_getD df (Int.toNat 1) hn]
  show atrAt df 1 (j + 1) = trAt df (j + 1)
  rw [show atrAt df 1 (j + 1) =
    1 / ((1 : ℕ) : ℚ) * trAt df (j + 1) + (1 - 1 / ((1 : ℕ) : ℚ)) * atrAt df 1 j from rfl]
  norm_num

/-- Witness for C8: at index 1 of the three-bar window the period-1 ATR
equals the true range, namely 2. -/
theorem C8_witness : (atrList w3 1).getD 1 0 = 2 := by
  have h := C8_atr_equals_tr w3 (atrList w3 1) rfl 1 (by decide) (by decide)
  rw [h]
  norm_num [trAt, closeAt, highAt, lowAt, w3, mkDoji, max_def]

/-- C9 (confirmed): `buySignal[i]` and `sellSignal[i]` never both hold —
they require `direction[i] = +1` and `= −1` respectively. -/
theorem C9_signals_mutually_exclusive (df : List Bar) (period : ℤ) (m : ℚ) (uc : Bool)
    (F : Frame) (hF : computeChandelier df period m uc = Except.ok F)
    (i : ℕ) (hn : i < df.length) :
    ¬ (F.buySignal.getD i false = true ∧ F.sellSignal.getD i false = true) := by
  obtain ⟨hp, rfl⟩ := computeChandelier_ok hF
  rw [frame_buySignal_getD df period.toNat m uc hn,
    frame_sellSignal_getD df period.toNat m uc hn]
  rintro ⟨hb, hs⟩
  have hb' : dirAt df period.toNat m uc i = 1 ∧
      dirPrevAt df period.toNat m uc i = -1 := by
    simpa [buySignalAt] using hb
  have hs' : dirAt df period.toNat m uc i = -1 ∧
      dirPrevAt df period.toNat m uc i = 1 := by
    simpa [sellSignalAt] using hs
  exact absurd (hb'.1.symm.trans hs'.1) (by decide)

/-- Witness for C9 at index 1 of the three-bar window. -/
theorem C9_witness :
    ¬ ((chandelierFrame w3 1 2 true).buySignal.getD 1 false = true ∧
      (chandelierFrame w3 1 2 true).sellSignal.getD 1 false = true) :=
  C9_signals_mutually_exclusive w3 1 2 true (chandelierFrame w3 1 2 true) rfl 1
    (by decide)

/-- C10 (confirmed): `chandelier_exit` returns a frame whose OHLCV rows
are the input rows unchanged (`result = df.copy()` then only new columns
are assigned), and each added indicator column has exactly one cell per
input row. -/
theorem C10_input_preserved (df : List Bar) (F : Frame)
    (hF : chandelier_exit df = Except.ok F) :
    F.bars = df ∧
    F.longStop.length = df.length ∧ F.shortStop.length = df.length ∧
    F.dir.length = df.length ∧ F.dir_prev.length = df.length ∧
    F.buySignal.length = df.length ∧ F.sellSignal.length = df.length := by
  have hF' : computeChandelier df ATR_PERIOD ATR_MULT USE_CLOSE = Except.ok F := hF
  obtain ⟨-, rfl⟩ := computeChandelier_ok hF'
  refine ⟨rfl, ?_, ?_, ?_, ?_, ?_, ?_⟩ <;> simp [chandelierFrame]

/-- Witness for C10 on the one-bar window. -/
theorem C10_witness :
    (chandelierFrame w1 1 2 true).bars = w1 ∧
    (chandelierFrame w1 1 2 true).longStop.length = w1.length ∧
    (chandelierFrame w1 1 2 true).shortStop.length = w1.length ∧
    (chandelierFrame w1 1 2 true).dir.length = w1.length ∧
    (chandelierFrame w1 1 2 true).dir_prev.length = w1.length ∧
    (chandelierFrame w1 1 2 true).buySignal.length = w1.length ∧
    (chandelierFrame w1 1 2 true).sellSignal.length = w1.length :=
  C10_input_preserved w1 (chandelierFrame w1 1 2 true) rfl
